import Mathlib

/-!
Verification of the interactive-transform / event-taxonomy core and the
RemoveColor image filter.

The development shallowly embeds:
* the `SideEffect` property-change reactor (its `invoke` gate over JS
  strict comparison `!==`);
* the event-name namespace generated by the `TPointerEvents`, `DnDEvents`,
  `CanvasSelectionEvents`, … type declarations;
* the per-target transform state machine (the `Transform` record is taken
  from the sources; the machine's transitions are modelled from the spec,
  since the canvas handler code is not among the sources);
* `RemoveColor.applyTo2d`, the stride-4 pixel loop.
-/

/-- A fragment of JavaScript runtime values, rich enough to interpret the
strict comparison (`===` / `!==`) used by `SideEffect.invoke`: numbers
(with `NaN` kept as a separate, non-self-equal value), strings, booleans,
`undefined`, `null`, and object references compared by identity. -/
inductive JSVal : Type where
  | num (q : ℚ)
  | nan
  | str (s : String)
  | boolean (b : Bool)
  | undef
  | nullV
  | obj (ref : ℕ)
  deriving DecidableEq

/-- JavaScript strict equality `===`: values of different runtime kinds are
never strictly equal, object references compare by identity, and `NaN` is
not strictly equal to anything, itself included. -/
def JSVal.strictEq : JSVal → JSVal → Bool
  | .num a, .num b => a == b
  | .str a, .str b => a == b
  | .boolean a, .boolean b => a == b
  | .undef, .undef => true
  | .nullV, .nullV => true
  | .obj a, .obj b => a == b
  | _, _ => false

/-- The watched-key specification of a `SideEffect`: the field
`keys: K[] | '*'` of the class — either the wildcard string or an
explicit array of keys. -/
inductive WatchKeys (K : Type) : Type where
  | wild
  | keySet (ks : List K)
  deriving DecidableEq

/-- The data of the abstract class `SideEffect<T, K extends keyof T>`:
a name and the watched-key specification.  The abstract `onChange` member
is represented by recording the calls `invoke` makes to it
(see `SideEffect.invokeCalls`). -/
structure SideEffect (K : Type) : Type where
  name : String
  keys : WatchKeys K

/-- The guard `this.keys === '*' || this.keys.includes(key)` of
`SideEffect.invoke`. -/
def SideEffect.watches {K : Type} [DecidableEq K] (s : SideEffect K) (key : K) : Bool :=
  match s.keys with
  | .wild => true
  | .keySet ks => ks.contains key

/-- Embedding of `SideEffect.invoke(key, value, prevValue)`: the body
`(this.keys === '*' || this.keys.includes(key)) && value !== prevValue &&
this.onChange(key, value, prevValue)` performs at most one `onChange`
call; the list of calls made (with their arguments) is returned. -/
def SideEffect.invokeCalls {K : Type} [DecidableEq K] (s : SideEffect K)
    (key : K) (value prevValue : JSVal) : List (K × JSVal × JSVal) :=
  if s.watches key && !(value.strictEq prevValue) then [(key, value, prevValue)] else []

/-- The type-level template `WithBeforeSuffix<T> = T | BeforeSuffix<T>`
as the two-element list of event names it denotes. -/
def withBeforeSuffix (t : String) : List String :=
  [t, t ++ ":before"]

/-- The keys of `TPointerEvents<Prefix>`: the prefixed names of
`down | down:before | move | move:before | up | up:before | dblclick`
together with `wheel`, `over` and `out` (the latter three without a
`:before` variant, exactly as declared). -/
def tPointerEventNames (pfx : String) : List String :=
  ((withBeforeSuffix "down" ++ withBeforeSuffix "move" ++
      withBeforeSuffix "up" ++ ["dblclick"]).map (fun s => pfx ++ s)) ++
    [pfx ++ "wheel", pfx ++ "over", pfx ++ "out"]

/-- Keys of `ObjectPointerEvents = TPointerEvents<'mouse'>`. -/
def objectPointerEventNames : List String := tPointerEventNames "mouse"

/-- Keys of `CanvasPointerEvents = TPointerEvents<'mouse:'>`. -/
def canvasPointerEventNames : List String := tPointerEventNames "mouse:"

/-- Keys of the `DnDEvents` type declaration: only `drop` has
`:before` / `:after` variants. -/
def dnDEventNames : List String :=
  ["dragstart", "drag", "dragover", "dragenter", "dragleave", "dragend",
    "drop:before", "drop", "drop:after"]

/-- Keys of `CanvasDnDEvents = DnDEvents & {drag:enter, drag:leave}`. -/
def canvasDnDEventNames : List String :=
  dnDEventNames ++ ["drag:enter", "drag:leave"]

/-- Keys of `CanvasSelectionEvents`: only the clearing phase has a
before variant, spelled `before:selection:cleared`. -/
def canvasSelectionEventNames : List String :=
  ["selection:created", "selection:updated",
    "before:selection:cleared", "selection:cleared"]

/-- The `TModificationEvents` union. -/
def modificationEventNames : List String :=
  ["moving", "scaling", "rotating", "skewing", "resizing"]

/-- Keys of `ObjectModifiedEvents`. -/
def objectModifiedEventNames : List String :=
  modificationEventNames ++ ["modified"]

/-- Keys of `CanvasModifiedEvents = Record<object:${keyof ObjectModifiedEvents}, …>`. -/
def canvasModifiedEventNames : List String :=
  objectModifiedEventNames.map (fun s => "object:" ++ s)

/-- Keys of `CollectionEvents`. -/
def collectionEventNames : List String :=
  ["object:added", "object:removed"]

/-- Keys of `StaticCanvasEvents`. -/
def staticCanvasEventNames : List String :=
  collectionEventNames ++ ["canvas:cleared", "before:render", "after:render"]

/-- Keys of the `CanvasEvents` intersection type: the complete
canvas-scoped event subscriber namespace. -/
def canvasEventNames : List String :=
  staticCanvasEventNames ++ canvasPointerEventNames ++ canvasDnDEventNames ++
    canvasModifiedEventNames ++ canvasSelectionEventNames ++
    ["before:path:created", "path:created", "erasing:start", "erasing:end",
      "text:selection:changed", "text:changed",
      "text:editing:entered", "text:editing:exited",
      "contextmenu:before", "contextmenu"]

/-- Keys of the `ObjectEvents` intersection type: the object-scoped
event subscriber namespace. -/
def objectEventNames : List String :=
  objectPointerEventNames ++ dnDEventNames ++ objectModifiedEventNames ++
    ["selected", "deselected", "added", "removed", "erasing:end"]

/-- The `corner` field of a `Transform`: its type in the sources is
`string | 0`, with `0` meaning "no corner / whole-body drag". -/
inductive TCorner : Type where
  | corner0
  | named (s : String)
  deriving DecidableEq

/-- The `Transform` record of the sources (the `export type Transform`
declaration), field for field, over an abstract object type `Obj`, an
abstract snapshot type `Snap` for `original`
(`ReturnType<typeof saveObjectTransform> & {originX, originY}`), and ℚ for
JS numbers.  The `actionHandler` function member is not stored; the
boolean each handler invocation returns is instead supplied with the
corresponding pointer-move (see `Move`). -/
structure Transform (Obj Snap : Type) : Type where
  target : Obj
  action : String
  corner : TCorner
  scaleX : ℚ
  scaleY : ℚ
  skewX : ℚ
  skewY : ℚ
  offsetX : ℚ
  offsetY : ℚ
  originX : String
  originY : String
  ex : ℚ
  ey : ℚ
  lastX : ℚ
  lastY : ℚ
  theta : ℚ
  width : ℚ
  height : ℚ
  shiftKey : Bool
  altKey : Bool
  original : Snap
  actionPerformed : Bool

/-- The target-state data a transform-start reads: the resolved target and
corner, the action name, and the snapshot of the target's
transform-relevant properties at gesture start. -/
structure StartInfo (Obj Snap : Type) : Type where
  target : Obj
  action : String
  corner : TCorner
  scaleX : ℚ
  scaleY : ℚ
  skewX : ℚ
  skewY : ℚ
  offsetX : ℚ
  offsetY : ℚ
  originX : String
  originY : String
  theta : ℚ
  width : ℚ
  height : ℚ
  shiftKey : Bool
  altKey : Bool
  original : Snap

/-- Modelled from the spec: the Transform instantiated by the
Idle → Active transition (§4.2) — `original` is the gesture-start
snapshot, `ex`/`ey` the pointer-down position (also the last observed
pointer position at that moment), and `actionPerformed = false`.  The
canvas handler code performing this is not among the sources. -/
def mkTransform {Obj Snap : Type} (info : StartInfo Obj Snap) (x y : ℚ) :
    Transform Obj Snap :=
  { target := info.target
    action := info.action
    corner := info.corner
    scaleX := info.scaleX
    scaleY := info.scaleY
    skewX := info.skewX
    skewY := info.skewY
    offsetX := info.offsetX
    offsetY := info.offsetY
    originX := info.originX
    originY := info.originY
    ex := x
    ey := y
    lastX := x
    lastY := y
    theta := info.theta
    width := info.width
    height := info.height
    shiftKey := info.shiftKey
    altKey := info.altKey
    original := info.original
    actionPerformed := false }

/-- Modelled from the spec: the per-target transform slot (§3, §5).  The
machine state is `Option (Transform Obj Snap)`: `none` is Idle, `some t`
is Active.  A transform-start request against a target that already has
an Active transform is ignored — a silent no-op, no error; from Idle it
creates the Transform of `mkTransform`.  The canvas mouse-down handler
implementing this is not among the sources. -/
def startTransform {Obj Snap : Type} (state : Option (Transform Obj Snap))
    (info : StartInfo Obj Snap) (x y : ℚ) : Option (Transform Obj Snap) :=
  match state with
  | some t => some t
  | none => some (mkTransform info x y)

/-- One pointer-move as the state machine sees it: the pointer coordinates
and the boolean the bound action handler returned for this move. -/
structure Move : Type where
  x : ℚ
  y : ℚ
  handlerReturned : Bool
  deriving DecidableEq

/-- Modelled from the spec: the Active → Active transition (§4.2) — the
bound action handler is invoked; if it returned `true`,
`actionPerformed` is set `true` and `lastX`/`lastY` are updated to the
current pointer position; otherwise the Transform is unchanged.  In the
Idle state a move does nothing.  The canvas mouse-move handler
implementing this is not among the sources. -/
def processMove {Obj Snap : Type} (state : Option (Transform Obj Snap))
    (m : Move) : Option (Transform Obj Snap) :=
  state.map (fun t =>
    if m.handlerReturned then
      { t with actionPerformed := true, lastX := m.x, lastY := m.y }
    else t)

/-- The moves of one gesture, processed strictly in delivery order. -/
def runMoves {Obj Snap : Type} (state : Option (Transform Obj Snap))
    (moves : List Move) : Option (Transform Obj Snap) :=
  moves.foldl processMove state

/-- Modelled from the spec: the Active → Idle transition (§4.2) — on
pointer-up (or capture loss, or cancellation) the machine returns to
Idle and a `modified` event fires iff `actionPerformed` is true.
Returns the new state and whether `modified` was emitted.  The canvas
mouse-up handler implementing this is not among the sources. -/
def endTransform {Obj Snap : Type} (state : Option (Transform Obj Snap)) :
    Option (Transform Obj Snap) × Bool :=
  (none, match state with
    | some t => t.actionPerformed
    | none => false)

/-- A selection event as carried on the canvas event namespace: its name
and its `deselected` payload (the `CanvasSelectionEvents` declarations
give both clearing events a `deselected: FabricObject[]` field). -/
structure SelectionEvent (Obj : Type) : Type where
  name : String
  deselected : List Obj

/-- Modelled from the spec: clicking empty canvas space while objects are
selected (§4.3) — the discrete gesture emits exactly one
`before:selection:cleared` and then exactly one `selection:cleared`,
each carrying the complete deselected set, and leaves the selection
empty.  Returns the emitted events in order and the new selection; the
canvas discard-selection code implementing this is not among the
sources. -/
def clickEmptySpace {Obj : Type} (selected : List Obj) :
    List (SelectionEvent Obj) × List Obj :=
  ([⟨"before:selection:cleared", selected⟩, ⟨"selection:cleared", selected⟩], [])

/-- The `RemoveColor` filter's own fields: the color to remove (any
format understood by `fabric.Color`), the per-channel `distance`
(a JS number, embedded as ℚ), and the documented-unimplemented
`useAlpha` flag. -/
structure RemoveColor : Type where
  color : String
  distance : ℚ
  useAlpha : Bool

/-- The loop body's guard in `RemoveColor.applyTo2d`: reads
`r = data[i]`, `g = data[i+1]`, `b = data[i+2]` and tests
`r > lowC[0] && g > lowC[1] && b > lowC[2] && r < highC[0] &&
g < highC[1] && b < highC[2]`.  An out-of-range typed-array read yields
`undefined`, whose comparisons are all false, so the guard then fails. -/
def bandAt (lowC highC : ℚ × ℚ × ℚ) (data : List ℕ) (i : ℕ) : Bool :=
  match data[i]?, data[i + 1]?, data[i + 2]? with
  | some r, some g, some b =>
      decide ((r : ℚ) > lowC.1) && decide ((g : ℚ) > lowC.2.1) &&
        decide ((b : ℚ) > lowC.2.2) && decide ((r : ℚ) < highC.1) &&
        decide ((g : ℚ) < highC.2.1) && decide ((b : ℚ) < highC.2.2)
  | _, _, _ => false

/-- The `for (i = 0; i < data.length; i += 4)` loop of
`RemoveColor.applyTo2d`: when the guard holds, `data[i+3] = 0` (an
out-of-range typed-array write is a no-op, as is `List.set` out of
range).  The loop is driven by explicit fuel; one unit per iteration
suffices, so `data.length` units cover the whole traversal. -/
def applyLoop (lowC highC : ℚ × ℚ × ℚ) : ℕ → List ℕ → ℕ → List ℕ
  | 0, data, _ => data
  | fuel + 1, data, i =>
    if i < data.length then
      applyLoop lowC highC fuel
        (if bandAt lowC highC data i then data.set (i + 3) 0 else data) (i + 4)
    else data

/-- Embedding of `RemoveColor.applyTo2d(options)` on the image-data
buffer: `distance = this.distance * 255`,
`source = new Color(this.color).getSource()` — the `Color` parser is
external to the sources, so it is passed as the function `getSource` —
`lowC = source - distance` and `highC = source + distance`
channel-wise, then the stride-4 loop over `data`. -/
def RemoveColor.applyTo2d (f : RemoveColor) (getSource : String → ℕ × ℕ × ℕ)
    (data : List ℕ) : List ℕ :=
  let source := getSource f.color
  let distance : ℚ := f.distance * 255
  let lowC : ℚ × ℚ × ℚ :=
    ((source.1 : ℚ) - distance, (source.2.1 : ℚ) - distance,
      (source.2.2 : ℚ) - distance)
  let highC : ℚ × ℚ × ℚ :=
    ((source.1 : ℚ) + distance, (source.2.1 : ℚ) + distance,
      (source.2.2 : ℚ) + distance)
  applyLoop lowC highC data.length data 0

/-- A concrete wildcard reactor, used to exhibit behaviour at `NaN`. -/
def nanWatcher : SideEffect ℕ :=
  ⟨"nanWatcher", WatchKeys.wild⟩

/-- A concrete reactor watching the key set `[1, 2]`. -/
def widthWatcher : SideEffect ℕ :=
  ⟨"widthWatcher", WatchKeys.keySet [1, 2]⟩

/-- A concrete transform-start description over trivial object and
snapshot types, used to exhibit concrete gestures. -/
def infoW : StartInfo Unit Unit :=
  ⟨(), "scale", TCorner.named "tr", 1, 1, 0, 0, 0, 0, "left", "top",
    0, 10, 10, false, false, ()⟩

/-- A concrete Active transform that has already performed an action. -/
def tW : Transform Unit Unit :=
  { mkTransform infoW 0 0 with actionPerformed := true }

/-- A concrete `RemoveColor` filter instance. -/
def fW : RemoveColor :=
  ⟨"#FFFFFF", 1, false⟩

/-- A concrete stand-in for the external `fabric.Color` parser. -/
def gsW : String → ℕ × ℕ × ℕ :=
  fun _ => (255, 255, 255)

/-- A concrete two-pixel image-data buffer. -/
def dataW : List ℕ :=
  [100, 90, 110, 7, 200, 100, 100, 9]

theorem strictEq_self (w : JSVal) (hw : w ≠ JSVal.nan) : w.strictEq w = true := by
  cases w <;> simp_all [JSVal.strictEq]

theorem applyLoop_length (lowC highC : ℚ × ℚ × ℚ) :
    ∀ (fuel : ℕ) (data : List ℕ) (i : ℕ),
      (applyLoop lowC highC fuel data i).length = data.length := by
  intro fuel
  induction fuel with
  | zero => intro data i; rfl
  | succ n ih =>
    intro data i
    simp only [applyLoop]
    by_cases hlen : i < data.length
    · rw [if_pos hlen, ih]
      by_cases hb : bandAt lowC highC data i <;> simp [hb]
    · rw [if_neg hlen]

theorem bandAt_set_of_ne (lowC highC : ℚ × ℚ × ℚ) (data : List ℕ) (p v i : ℕ)
    (h0 : p ≠ i) (h1 : p ≠ i + 1) (h2 : p ≠ i + 2) :
    bandAt lowC highC (data.set p v) i = bandAt lowC highC data i := by
  simp only [bandAt, List.getElem?_set_ne h0, List.getElem?_set_ne h1,
    List.getElem?_set_ne h2]

theorem applyLoop_getElem?_lt (lowC highC : ℚ × ℚ × ℚ) :
    ∀ (fuel : ℕ) (data : List ℕ) (i j : ℕ), j < i →
      (applyLoop lowC highC fuel data i)[j]? = data[j]? := by
  intro fuel
  induction fuel with
  | zero => intro data i j _; rfl
  | succ n ih =>
    intro data i j hj
    simp only [applyLoop]
    by_cases hlen : i < data.length
    · rw [if_pos hlen, ih _ _ _ (by omega)]
      by_cases hb : bandAt lowC highC data i
      · rw [if_pos hb, List.getElem?_set_ne (by omega)]
      · rw [if_neg hb]
    · rw [if_neg hlen]

theorem applyLoop_getElem?_mod (lowC highC : ℚ × ℚ × ℚ) :
    ∀ (fuel : ℕ) (data : List ℕ) (i j : ℕ), i % 4 = 0 → j % 4 ≠ 3 →
      (applyLoop lowC highC fuel data i)[j]? = data[j]? := by
  intro fuel
  induction fuel with
  | zero => intro data i j _ _; rfl
  | succ n ih =>
    intro data i j h4 hj
    simp only [applyLoop]
    by_cases hlen : i < data.length
    · rw [if_pos hlen, ih _ _ _ (by omega) hj]
      by_cases hb : bandAt lowC highC data i
      · rw [if_pos hb, List.getElem?_set_ne (by omega)]
      · rw [if_neg hb]
    · rw [if_neg hlen]

theorem applyLoop_getElem?_alpha (lowC highC : ℚ × ℚ × ℚ) :
    ∀ (fuel : ℕ) (data : List ℕ) (i m : ℕ), i % 4 = 0 → i ≤ 4 * m →
      4 * m + 3 < data.length → data.length ≤ i + fuel →
      (applyLoop lowC highC fuel data i)[4 * m + 3]? =
        if bandAt lowC highC data (4 * m) = true then some 0
        else data[4 * m + 3]? := by
  intro fuel
  induction fuel with
  | zero => intro data i m _ him hm hfuel; omega
  | succ n ih =>
    intro data i m h4 him hm hfuel
    have hlen : i < data.length := by omega
    simp only [applyLoop, if_pos hlen]
    by_cases heq : i = 4 * m
    · subst heq
      rw [applyLoop_getElem?_lt _ _ _ _ _ _ (by omega)]
      by_cases hb : bandAt lowC highC data (4 * m)
      · rw [if_pos hb, if_pos hb, List.getElem?_set_self (by omega)]
      · rw [if_neg hb, if_neg hb]
    · have h4' : (i + 4) % 4 = 0 := by omega
      have him' : i + 4 ≤ 4 * m := by omega
      by_cases hb : bandAt lowC highC data i
      · rw [if_pos hb,
          ih _ _ _ h4' him' (by simpa using hm) (by simp; omega),
          bandAt_set_of_ne _ _ _ _ _ _ (by omega) (by omega) (by omega),
          List.getElem?_set_ne (by omega)]
      · rw [if_neg hb]
        exact ih _ _ _ h4' him' hm (by omega)

theorem bandAt_true_iff (lowC highC : ℚ × ℚ × ℚ) (data : List ℕ) (i : ℕ)
    (h2 : i + 2 < data.length) :
    bandAt lowC highC data i = true ↔
      (lowC.1 < (data.getD i 0 : ℚ) ∧ lowC.2.1 < (data.getD (i + 1) 0 : ℚ) ∧
        lowC.2.2 < (data.getD (i + 2) 0 : ℚ) ∧ (data.getD i 0 : ℚ) < highC.1 ∧
        (data.getD (i + 1) 0 : ℚ) < highC.2.1 ∧
        (data.getD (i + 2) 0 : ℚ) < highC.2.2) := by
  have h0 : i < data.length := by omega
  have h1 : i + 1 < data.length := by omega
  unfold bandAt
  rw [List.getElem?_eq_getElem h0, List.getElem?_eq_getElem h1,
    List.getElem?_eq_getElem h2]
  simp [List.getD_eq_getElem?_getD, List.getElem?_eq_getElem, h0, h1, h2,
    and_assoc, gt_iff_lt]

theorem processMove_some {Obj Snap : Type} (t : Transform Obj Snap) (m : Move) :
    processMove (some t) m =
      some (if m.handlerReturned then
        { t with actionPerformed := true, lastX := m.x, lastY := m.y }
      else t) := rfl

theorem runMoves_some {Obj Snap : Type} :
    ∀ (moves : List Move) (t : Transform Obj Snap),
      ∃ u, runMoves (some t) moves = some u := by
  intro moves
  induction moves with
  | nil => exact fun t => ⟨t, rfl⟩
  | cons m ms ih =>
    intro t
    simp only [runMoves, List.foldl_cons, processMove_some]
    exact ih _

theorem runMoves_append_single {Obj Snap : Type}
    (state : Option (Transform Obj Snap)) (ms : List Move) (m : Move) :
    runMoves state (ms ++ [m]) = processMove (runMoves state ms) m := by
  simp [runMoves, List.foldl_append]

theorem runMoves_some_actionPerformed {Obj Snap : Type}
    (moves : List Move) (t : Transform Obj Snap) :
    (runMoves (some t) moves).map Transform.actionPerformed =
      some (t.actionPerformed || moves.any (fun m => m.handlerReturned)) := by
  induction moves using List.reverseRecOn with
  | nil => simp [runMoves]
  | append_singleton ms m ih =>
    rw [runMoves_append_single]
    obtain ⟨u, hu⟩ := runMoves_some ms t
    rw [hu] at ih ⊢
    have ih' : u.actionPerformed =
        (t.actionPerformed || ms.any (fun m => m.handlerReturned)) :=
      Option.some.inj ih
    rw [processMove_some]
    by_cases hm : m.handlerReturned = true
    · simp [hm, List.any_append]
    · have hm' : m.handlerReturned = false := by simpa using hm
      simp [hm', List.any_append, ih']

theorem runMoves_some_lastXY {Obj Snap : Type}
    (moves : List Move) (t : Transform Obj Snap) :
    (runMoves (some t) moves).map (fun u => (u.lastX, u.lastY)) =
      some ((((moves.filter (fun m => m.handlerReturned)).getLast?).map
        (fun m => (m.x, m.y))).getD (t.lastX, t.lastY)) := by
  induction moves using List.reverseRecOn with
  | nil => simp [runMoves]
  | append_singleton ms m ih =>
    rw [runMoves_append_single]
    obtain ⟨u, hu⟩ := runMoves_some ms t
    rw [hu] at ih ⊢
    have ih' : (u.lastX, u.lastY) =
        (((ms.filter (fun m => m.handlerReturned)).getLast?).map
          (fun m => (m.x, m.y))).getD (t.lastX, t.lastY) :=
      Option.some.inj ih
    rw [processMove_some]
    by_cases hm : m.handlerReturned = true
    · simp [hm, List.filter_append, List.getLast?_concat]
    · have hm' : m.handlerReturned = false := by simpa using hm
      simp [hm', List.filter_append, ih']

theorem watches_true_iff {K : Type} [DecidableEq K] (s : SideEffect K) (key : K) :
    s.watches key = true ↔
      (s.keys = WatchKeys.wild ∨ ∃ ks, s.keys = WatchKeys.keySet ks ∧ key ∈ ks) := by
  unfold SideEffect.watches
  cases hk : s.keys with
  | wild => simp
  | keySet ks => simp [List.contains, List.elem_iff]

/-- Claim C1 (amended): `invoke(key, value, prevValue)` calls
`onChange(key, value, prevValue)` — with exactly those arguments, at most
once — if and only if (the watched-key specification is the wildcard, or
`key` is a member of the watched-key set) and `value !== prevValue` under
JS strict comparison; consequently `invoke(key, v, v)` never calls
`onChange` for any value `v` that is strictly equal to itself (every
object reference, every equal primitive other than `NaN`). -/
theorem sideEffect_invoke_iff {K : Type} [DecidableEq K] (s : SideEffect K)
    (key : K) (v pv : JSVal) :
    (s.invokeCalls key v pv ≠ [] ↔
        (s.keys = WatchKeys.wild ∨ ∃ ks, s.keys = WatchKeys.keySet ks ∧ key ∈ ks) ∧
          v.strictEq pv = false) ∧
      (s.invokeCalls key v pv ≠ [] → s.invokeCalls key v pv = [(key, v, pv)]) ∧
      (∀ w : JSVal, w ≠ JSVal.nan → s.invokeCalls key w w = []) := by
  refine ⟨?_, ?_, ?_⟩
  · unfold SideEffect.invokeCalls
    by_cases hc : (s.watches key && !(v.strictEq pv)) = true
    · rw [if_pos hc]
      rw [Bool.and_eq_true, Bool.not_eq_true'] at hc
      exact iff_of_true (by simp) ⟨(watches_true_iff s key).mp hc.1, hc.2⟩
    · rw [if_neg hc]
      rw [Bool.and_eq_true, Bool.not_eq_true'] at hc
      exact iff_of_false (by simp)
        (fun hp => hc ⟨(watches_true_iff s key).mpr hp.1, hp.2⟩)
  · intro hne
    unfold SideEffect.invokeCalls at hne ⊢
    by_cases hc : (s.watches key && !(v.strictEq pv)) = true
    · rw [if_pos hc]
    · rw [if_neg hc] at hne
      exact absurd rfl hne
  · intro w hw
    unfold SideEffect.invokeCalls
    rw [if_neg (by simp [strictEq_self w hw])]

/-- Claim C1 witness: a reactor watching `[1, 2]` makes no `onChange`
call on `invoke(1, 3, 3)` with the self-equal value `3`. -/
theorem sideEffect_invoke_iff_witness :
    JSVal.num 3 ≠ JSVal.nan ∧
      widthWatcher.invokeCalls 1 (JSVal.num 3) (JSVal.num 3) = [] :=
  ⟨by decide,
    (sideEffect_invoke_iff widthWatcher 1 (JSVal.num 3) (JSVal.num 3)).2.2
      (JSVal.num 3) (by decide)⟩

/-- Claim C1 counterexample: for `v = NaN`, `invoke(key, v, v)` does call
`onChange` on a wildcard reactor, because `NaN !== NaN` holds under JS
strict comparison — refuting "`invoke(key, v, v)` never calls `onChange`,
for every value `v`". -/
theorem sideEffect_nan_self_calls_onChange :
    nanWatcher.invokeCalls 0 JSVal.nan JSVal.nan = [(0, JSVal.nan, JSVal.nan)] := rfl

/-- Claim C2 counterexample: the event namespace generated by the type
declarations does not contain a `:before` variant for every interaction
kind — `dblclick` has none (neither canvas- nor object-scoped), and the
drag-and-drop phase `dragstart` has neither a `:before` nor an `:after`
variant, while the non-suffixed names are present. -/
theorem eventNames_missing_before_variants :
    "mouse:dblclick" ∈ canvasEventNames ∧
      "mouse:dblclick:before" ∉ canvasEventNames ∧
      "mousedblclick" ∈ objectEventNames ∧
      "mousedblclick:before" ∉ objectEventNames ∧
      "dragstart" ∈ canvasEventNames ∧
      "dragstart:before" ∉ canvasEventNames ∧
      "dragstart:after" ∉ canvasEventNames := by
  decide

/-- Claim C2 (amended): in the event subscriber namespace generated by the
type declarations, cancellable `:before` variants exist exactly for the
`down`, `move` and `up` pointer kinds (canvas-scoped `mouse:<k>:before`
and object-scoped `mouse<k>:before`); `dblclick`, `wheel`, `over` and
`out` have only the non-suffixed name; among the drag-and-drop phases only
`drop` has `:before` and `:after` variants; among the selection-change
events only clearing has a before variant, `before:selection:cleared`. -/
theorem eventNames_before_structure :
    "mouse:down" ∈ canvasEventNames ∧
      "mouse:down:before" ∈ canvasEventNames ∧
      "mouse:move" ∈ canvasEventNames ∧
      "mouse:move:before" ∈ canvasEventNames ∧
      "mouse:up" ∈ canvasEventNames ∧
      "mouse:up:before" ∈ canvasEventNames ∧
      "mouse:dblclick" ∈ canvasEventNames ∧
      "mouse:dblclick:before" ∉ canvasEventNames ∧
      "mouse:wheel" ∈ canvasEventNames ∧
      "mouse:wheel:before" ∉ canvasEventNames ∧
      "mouse:over" ∈ canvasEventNames ∧
      "mouse:over:before" ∉ canvasEventNames ∧
      "mouse:out" ∈ canvasEventNames ∧
      "mouse:out:before" ∉ canvasEventNames ∧
      "mousedown:before" ∈ objectEventNames ∧
      "mousemove:before" ∈ objectEventNames ∧
      "mouseup:before" ∈ objectEventNames ∧
      "mousedblclick:before" ∉ objectEventNames ∧
      "mousewheel:before" ∉ objectEventNames ∧
      "mouseover:before" ∉ objectEventNames ∧
      "mouseout:before" ∉ objectEventNames ∧
      "drop" ∈ canvasEventNames ∧
      "drop:before" ∈ canvasEventNames ∧
      "drop:after" ∈ canvasEventNames ∧
      "dragstart:before" ∉ canvasEventNames ∧
      "dragstart:after" ∉ canvasEventNames ∧
      "drag:before" ∉ canvasEventNames ∧
      "drag:after" ∉ canvasEventNames ∧
      "dragover:before" ∉ canvasEventNames ∧
      "dragover:after" ∉ canvasEventNames ∧
      "dragenter:before" ∉ canvasEventNames ∧
      "dragenter:after" ∉ canvasEventNames ∧
      "dragleave:before" ∉ canvasEventNames ∧
      "dragleave:after" ∉ canvasEventNames ∧
      "dragend:before" ∉ canvasEventNames ∧
      "dragend:after" ∉ canvasEventNames ∧
      "selection:created" ∈ canvasEventNames ∧
      "selection:updated" ∈ canvasEventNames ∧
      "before:selection:cleared" ∈ canvasEventNames ∧
      "selection:cleared" ∈ canvasEventNames ∧
      "before:selection:created" ∉ canvasEventNames ∧
      "selection:created:before" ∉ canvasEventNames ∧
      "before:selection:updated" ∉ canvasEventNames ∧
      "selection:updated:before" ∉ canvasEventNames := by
  repeat' apply And.intro
  all_goals decide

/-- Claim C3: at most one Transform is Active per target — the per-target
slot holds at most one transform by construction, and a transform-start
request against a target whose slot is already Active is a silent no-op:
it returns normally (no raised failure) and leaves the existing Active
transform unchanged, whatever the new request's control, snapshot or
pointer position. -/
theorem transform_start_exclusive {Obj Snap : Type} (t : Transform Obj Snap)
    (info : StartInfo Obj Snap) (x y : ℚ) :
    startTransform (some t) info x y = some t := rfl

/-- Claim C5: a pointer-down on control `C` of object `O` with no
pre-existing Active transform creates exactly the Transform with
`target = O`, `corner = C`, `actionPerformed = false`, `original` the
gesture-start snapshot, and `ex`/`ey` the pointer-down position. -/
theorem transform_start_fields {Obj Snap : Type} (info : StartInfo Obj Snap)
    (x y : ℚ) :
    startTransform none info x y = some (mkTransform info x y) ∧
      (mkTransform info x y).target = info.target ∧
      (mkTransform info x y).corner = info.corner ∧
      (mkTransform info x y).actionPerformed = false ∧
      (mkTransform info x y).original = info.original ∧
      (mkTransform info x y).ex = x ∧ (mkTransform info x y).ey = y :=
  ⟨rfl, rfl, rfl, rfl, rfl, rfl, rfl⟩

/-- Claim C4: over a whole gesture — start from Idle, any sequence of
moves, then pointer-up — the `modified` event is emitted iff at least one
move's bound action handler returned a truthy result; the created
transform starts with `actionPerformed = false`, and `actionPerformed` is
monotonic: once true it stays true through any further moves. -/
theorem modified_iff_truthy_move {Obj Snap : Type} (info : StartInfo Obj Snap)
    (x y : ℚ) (moves : List Move) :
    (mkTransform info x y).actionPerformed = false ∧
      (endTransform (runMoves (startTransform none info x y) moves)).2 =
        moves.any (fun m => m.handlerReturned) ∧
      (∀ (t : Transform Obj Snap) (more : List Move),
        t.actionPerformed = true →
          (runMoves (some t) more).map Transform.actionPerformed = some true) := by
  refine ⟨rfl, ?_, ?_⟩
  · show (endTransform (runMoves (some (mkTransform info x y)) moves)).2 = _
    obtain ⟨u, hu⟩ := runMoves_some moves (mkTransform info x y)
    have h := runMoves_some_actionPerformed moves (mkTransform info x y)
    rw [hu] at h
    have h' : u.actionPerformed =
        ((mkTransform info x y).actionPerformed ||
          moves.any (fun m => m.handlerReturned)) := Option.some.inj h
    rw [hu]
    show u.actionPerformed = _
    rw [h']
    rfl
  · intro t more ht
    rw [runMoves_some_actionPerformed more t, ht, Bool.true_or]

/-- Claim C4 witness: an already-performed transform keeps
`actionPerformed = true` across a further move whose handler returns
false. -/
theorem modified_iff_truthy_move_witness :
    tW.actionPerformed = true ∧
      (runMoves (some tW) [⟨1, 2, false⟩]).map Transform.actionPerformed =
        some true :=
  ⟨rfl, (modified_iff_truthy_move infoW 0 0 []).2.2 tW [⟨1, 2, false⟩] rfl⟩

/-- Claim C6 counterexample: a gesture started at pointer position (0, 0)
with a single move to (5, 7) whose bound action handler returns false
leaves `lastX`/`lastY` at (0, 0), not at the coordinates (5, 7) of the
final move — the update is gated on a truthy handler return. -/
theorem lastXY_not_last_move :
    (runMoves (some (mkTransform infoW 0 0)) [⟨5, 7, false⟩]).map
        (fun u => (u.lastX, u.lastY)) = some ((0 : ℚ), (0 : ℚ)) ∧
      (0 : ℚ) ≠ 5 := by
  exact ⟨rfl, by decide⟩

/-- Claim C6 (amended): after a gesture's move sequence is processed in
delivery order, `lastX`/`lastY` equal the coordinates of the last move
whose bound action handler returned a truthy result, and remain at the
pointer-down position if no move's handler did; in particular they equal
move N's coordinates whenever move N's handler returned truthy. -/
theorem lastXY_last_truthy_move {Obj Snap : Type} (info : StartInfo Obj Snap)
    (x y : ℚ) (moves : List Move) :
    (runMoves (startTransform none info x y) moves).map
        (fun u => (u.lastX, u.lastY)) =
      some ((((moves.filter (fun m => m.handlerReturned)).getLast?).map
        (fun m => (m.x, m.y))).getD (x, y)) := by
  show (runMoves (some (mkTransform info x y)) moves).map _ = _
  rw [runMoves_some_lastXY]
  rfl

/-- Claim C7: deselecting by clicking empty canvas space emits exactly one
`before:selection:cleared` followed by exactly one `selection:cleared` —
never one event per object and never the opposite order — and both carry
the same complete deselected set: the whole previous selection. -/
theorem selection_cleared_batched {Obj : Type} (sel : List Obj) :
    (clickEmptySpace sel).1.map SelectionEvent.name =
        ["before:selection:cleared", "selection:cleared"] ∧
      (clickEmptySpace sel).1.map SelectionEvent.deselected = [sel, sel] ∧
      (clickEmptySpace sel).2 = [] :=
  ⟨rfl, rfl, rfl⟩

/-- Claim C8: for every image-data buffer and every pixel (stride 4),
`RemoveColor.applyTo2d` sets the pixel's alpha channel to 0 if and only
if each of its r, g, b channels lies strictly between the corresponding
channel of the parsed `color` minus `distance * 255` and the same channel
plus `distance * 255` (strict inequalities — a pixel exactly on a band
boundary is not removed); the alpha of every other pixel is left
unchanged. -/
theorem removeColor_applyTo2d_alpha (f : RemoveColor)
    (gs : String → ℕ × ℕ × ℕ) (data : List ℕ) (m : ℕ)
    (h : 4 * m + 3 < data.length) :
    (f.applyTo2d gs data)[4 * m + 3]? =
      if ((gs f.color).1 : ℚ) - f.distance * 255 < (data.getD (4 * m) 0 : ℚ) ∧
          ((gs f.color).2.1 : ℚ) - f.distance * 255 <
            (data.getD (4 * m + 1) 0 : ℚ) ∧
          ((gs f.color).2.2 : ℚ) - f.distance * 255 <
            (data.getD (4 * m + 2) 0 : ℚ) ∧
          (data.getD (4 * m) 0 : ℚ) < ((gs f.color).1 : ℚ) + f.distance * 255 ∧
          (data.getD (4 * m + 1) 0 : ℚ) <
            ((gs f.color).2.1 : ℚ) + f.distance * 255 ∧
          (data.getD (4 * m + 2) 0 : ℚ) <
            ((gs f.color).2.2 : ℚ) + f.distance * 255
      then some 0 else data[4 * m + 3]? := by
  have h2 : 4 * m + 2 < data.length := by omega
  rw [show f.applyTo2d gs data = applyLoop
      (((gs f.color).1 : ℚ) - f.distance * 255,
        ((gs f.color).2.1 : ℚ) - f.distance * 255,
        ((gs f.color).2.2 : ℚ) - f.distance * 255)
      (((gs f.color).1 : ℚ) + f.distance * 255,
        ((gs f.color).2.1 : ℚ) + f.distance * 255,
        ((gs f.color).2.2 : ℚ) + f.distance * 255)
      data.length data 0 from rfl]
  rw [applyLoop_getElem?_alpha _ _ data.length data 0 m (by omega) (by omega) h
    (by omega)]
  exact if_congr (bandAt_true_iff _ _ data (4 * m) h2) rfl rfl

/-- Claim C8 witness: the alpha characterization instantiated on a
concrete two-pixel buffer at pixel 0. -/
theorem removeColor_applyTo2d_alpha_witness :
    4 * 0 + 3 < dataW.length ∧
      (fW.applyTo2d gsW dataW)[4 * 0 + 3]? =
        (if ((gsW fW.color).1 : ℚ) - fW.distance * 255 <
              (dataW.getD (4 * 0) 0 : ℚ) ∧
            ((gsW fW.color).2.1 : ℚ) - fW.distance * 255 <
              (dataW.getD (4 * 0 + 1) 0 : ℚ) ∧
            ((gsW fW.color).2.2 : ℚ) - fW.distance * 255 <
              (dataW.getD (4 * 0 + 2) 0 : ℚ) ∧
            (dataW.getD (4 * 0) 0 : ℚ) <
              ((gsW fW.color).1 : ℚ) + fW.distance * 255 ∧
            (dataW.getD (4 * 0 + 1) 0 : ℚ) <
              ((gsW fW.color).2.1 : ℚ) + fW.distance * 255 ∧
            (dataW.getD (4 * 0 + 2) 0 : ℚ) <
              ((gsW fW.color).2.2 : ℚ) + fW.distance * 255
        then some 0 else dataW[4 * 0 + 3]?) :=
  ⟨by decide, removeColor_applyTo2d_alpha fW gsW dataW 0 (by decide)⟩

/-- Claim C9: `RemoveColor.applyTo2d` never modifies an r, g or b channel
and never changes the buffer's length — the only positions that may
differ are the alpha channels (index ≡ 3 mod 4). -/
theorem removeColor_applyTo2d_frame (f : RemoveColor)
    (gs : String → ℕ × ℕ × ℕ) (data : List ℕ) :
    (f.applyTo2d gs data).length = data.length ∧
      ∀ j : ℕ, j % 4 ≠ 3 → (f.applyTo2d gs data)[j]? = data[j]? := by
  constructor
  · exact applyLoop_length _ _ _ _ _
  · intro j hj
    exact applyLoop_getElem?_mod _ _ _ _ _ _ (by omega) hj

/-- Claim C9 witness: the frame property instantiated on a concrete
buffer at the red channel of pixel 0. -/
theorem removeColor_applyTo2d_frame_witness :
    (0 : ℕ) % 4 ≠ 3 ∧ (fW.applyTo2d gsW dataW)[0]? = dataW[0]? :=
  ⟨by decide, (removeColor_applyTo2d_frame fW gsW dataW).2 0 (by decide)⟩

/-- Claim C10: the output of `RemoveColor.applyTo2d` is independent of the
`useAlpha` flag — two filters identical except for `useAlpha` produce
identical buffers on every input, because the 2d path never reads the
flag. -/
theorem removeColor_useAlpha_independent (c : String) (d : ℚ) (u1 u2 : Bool)
    (gs : String → ℕ × ℕ × ℕ) (data : List ℕ) :
    RemoveColor.applyTo2d ⟨c, d, u1⟩ gs data =
      RemoveColor.applyTo2d ⟨c, d, u2⟩ gs data := rfl
